import Mathlib

/-!
Shallow embedding of the page-interaction layer of the saudemo-playwright
repository (the defensive `BasePage` + page-object family), together with a
model of the external browser-automation driver it drives.

Each page-object method is embedded as a function from a `Driver` (an oracle
giving the outcome of each driver-level operation) to a result
`Except Err α` paired with the list of driver operations the method actually
issued, in order.  Errors are the message strings the source constructs with
`throw new Error(...)` (constructor `Err.thrown`), or raw driver failures
propagated untouched (constructor `Err.driver`).
-/

namespace SauceDemo

/-- A driver-level operation issued to the external browser-automation driver. -/
inductive Op where
  | waitVisible (selector : String) (timeout : Option Nat)
  | click (selector : String)
  | fill (selector : String) (value : String)
  | press (selector : String) (key : String)
  | selectOption (selector : String) (option : String)
  | haveText (selector : String) (expected : String) (timeout : Option Nat)
  | notVisible (selector : String)
  | haveURL (expected : String)
  | urlMatches (pattern : String)
  | allTextContents (selector : String)
  deriving Repr, DecidableEq

/-- An error escaping a page-object method: either a driver-level error
propagated unchanged (identified with its rendered string), or an `Error`
thrown by the page layer itself via `throw new Error(message)`. -/
inductive Err where
  | driver (s : String)
  | thrown (message : String)
  deriving Repr, DecidableEq

/-- The string rendering `${error}` of an error in a template literal:
a JS `Error` renders as `Error: <message>`; a driver error is identified
with its rendering. -/
def errString : Err → String
  | .driver s => s
  | .thrown m => "Error: " ++ m

/-- Outcome oracle for the external browser-automation driver (spec section 6):
every element operation is individually fallible, failing with a driver error
rendered as a string. -/
structure Driver where
  url : String
  waitVisible : String → Option Nat → Except String Unit
  click : String → Except String Unit
  fill : String → String → Except String Unit
  press : String → String → Except String Unit
  selectOption : String → String → Except String Unit
  haveText : String → String → Option Nat → Except String Unit
  notVisible : String → Except String Unit
  haveURL : String → Except String Unit
  urlMatches : String → Except String Unit
  allTextContents : String → Except String (List String)

/-- Rendering of the JS expression `timeout || 'default'` appearing in the
BasePage error messages: `undefined` and `0` are falsy, so both render as
`default`. -/
def timeoutStr : Option Nat → String
  | none => "default"
  | some t => if t = 0 then "default" else toString t

/-- Message of `BasePage.waitForElement`:
`Element "<sel>" not visible within <timeout or default> timeout: <error>`. -/
def elementNotVisibleMsg (selector : String) (timeout : Option Nat) (cause : String) : String :=
  "Element \"" ++ selector ++ "\" not visible within " ++ timeoutStr timeout
    ++ " timeout: " ++ cause

/-- Message of `BasePage.assertElementText`. -/
def assertTextFailMsg (selector text : String) (timeout : Option Nat) (cause : String) : String :=
  "Element \"" ++ selector ++ "\" does not have expected text \"" ++ text
    ++ "\" within " ++ timeoutStr timeout ++ " timeout: " ++ cause

/-- Message of `BasePage.clickElement`. -/
def failedClickMsg (selector : String) (cause : String) : String :=
  "Failed to click element \"" ++ selector ++ "\": " ++ cause

/-- Message of `BasePage.fillField`. -/
def failedFillMsg (selector value : String) (cause : String) : String :=
  "Failed to fill field \"" ++ selector ++ "\" with value \"" ++ value ++ "\": " ++ cause

/-- Message of `BasePage.assertUrlContains`. -/
def urlFailMsg (urlSubstring currentUrl cause : String) : String :=
  "URL does not contain \"" ++ urlSubstring ++ "\". Current URL: " ++ currentUrl
    ++ ". Error: " ++ cause

/-- Message of `BasePage.getAllTextContents`. -/
def allTextFailMsg (selector : String) (cause : String) : String :=
  "Failed to get text contents from elements matching \"" ++ selector ++ "\": " ++ cause

/-- Sequencing of two awaited steps: the second runs only when the first
succeeded; the issued-operation traces concatenate. -/
def andThen {α β : Type} (x : Except Err α × List Op)
    (f : α → Except Err β × List Op) : Except Err β × List Op :=
  match x with
  | (.ok a, t) => ((f a).1, t ++ (f a).2)
  | (.error e, t) => (.error e, t)

/-- Embedding of `BasePage.waitForElement(selector, timeout?)`: waits for visibility via the
driver; on failure, catches and re-throws
`Element "<sel>" not visible within <t> timeout: <cause>`.  Returns the
locator, identified here with its selector. -/
def BasePage.waitForElement (d : Driver) (selector : String) (timeout : Option Nat) :
    Except Err String × List Op :=
  match d.waitVisible selector timeout with
  | .ok _ => (.ok selector, [.waitVisible selector timeout])
  | .error e =>
      (.error (.thrown (elementNotVisibleMsg selector timeout e)),
        [.waitVisible selector timeout])

/-- Embedding of `BasePage.assertElementText(selector, text, timeout?)`: driver-level
`toHaveText`; on failure, catches and re-throws the enriched message. -/
def BasePage.assertElementText (d : Driver) (selector text : String) (timeout : Option Nat) :
    Except Err Unit × List Op :=
  match d.haveText selector text timeout with
  | .ok _ => (.ok (), [.haveText selector text timeout])
  | .error e =>
      (.error (.thrown (assertTextFailMsg selector text timeout e)),
        [.haveText selector text timeout])

/-- Embedding of `BasePage.clickElement(selector)`: `waitForElement` then click on the
returned locator; any failure in the try block (the wait error it re-threw, or
the driver click error) is caught and re-thrown as
`Failed to click element "<sel>": <cause>`. -/
def BasePage.clickElement (d : Driver) (selector : String) : Except Err Unit × List Op :=
  match BasePage.waitForElement d selector none with
  | (.ok loc, t) =>
      match d.click loc with
      | .ok _ => (.ok (), t ++ [.click loc])
      | .error e => (.error (.thrown (failedClickMsg selector e)), t ++ [.click loc])
  | (.error e, t) => (.error (.thrown (failedClickMsg selector (errString e))), t)

/-- Embedding of `BasePage.fillField(selector, value)`: `waitForElement` then fill; failures
caught and re-thrown as
`Failed to fill field "<sel>" with value "<v>": <cause>`. -/
def BasePage.fillField (d : Driver) (selector value : String) : Except Err Unit × List Op :=
  match BasePage.waitForElement d selector none with
  | (.ok loc, t) =>
      match d.fill loc value with
      | .ok _ => (.ok (), t ++ [.fill loc value])
      | .error e => (.error (.thrown (failedFillMsg selector value e)), t ++ [.fill loc value])
  | (.error e, t) => (.error (.thrown (failedFillMsg selector value (errString e))), t)

/-- Embedding of `BasePage.assertUrlContains(urlSubstring)`: driver-level `toHaveURL` with a
regexp built from the substring; on failure, reads the current URL and
re-throws the enriched message. -/
def BasePage.assertUrlContains (d : Driver) (urlSubstring : String) :
    Except Err Unit × List Op :=
  match d.urlMatches urlSubstring with
  | .ok _ => (.ok (), [.urlMatches urlSubstring])
  | .error e =>
      (.error (.thrown (urlFailMsg urlSubstring d.url e)), [.urlMatches urlSubstring])

/-- Embedding of `BasePage.getAllTextContents(selector)`: driver-level `allTextContents`
with no waiting; on failure, catches and re-throws the enriched message. -/
def BasePage.getAllTextContents (d : Driver) (selector : String) :
    Except Err (List String) × List Op :=
  match d.allTextContents selector with
  | .ok xs => (.ok xs, [.allTextContents selector])
  | .error e =>
      (.error (.thrown (allTextFailMsg selector e)), [.allTextContents selector])

/-- A DOM element as the layer observes it: visibility and text content. -/
structure Elem where
  visible : Bool
  text : String
  deriving Repr, DecidableEq

/-- A snapshot of the browser page state: the current URL, the list of
elements each selector currently matched (in DOM order), and, for selectors
resolving to a `<select>`, the option values/labels it offers. -/
structure Dom where
  url : String
  matched : String → List Elem
  options : String → List String

/-- Modelled from the spec: the external driver timeout error for a
visibility wait (spec sections 2 and 6; the concrete driver is an external
collaborator, so its message text is a model). -/
def waitTimeoutMsg (selector : String) : String :=
  "TimeoutError: waiting for locator(" ++ selector ++ ") to be visible"

/-- Modelled from the spec: driver error for a click rejected because no
matching element is actionable. -/
def clickRejectedMsg (selector : String) : String :=
  "TimeoutError: locator.click: " ++ selector

/-- Modelled from the spec: driver error for a fill rejected because no
matching element is editable. -/
def fillRejectedMsg (selector : String) : String :=
  "TimeoutError: locator.fill: " ++ selector

/-- Modelled from the spec: driver error when `selectOption` finds no option
with the requested value or label in the `<select>`. -/
def selectOptionTimeoutMsg (selector option : String) : String :=
  "TimeoutError: locator.selectOption: did not find some options: " ++ option
    ++ " in " ++ selector

/-- Modelled from the spec: driver error for a text assertion mismatch. -/
def haveTextMismatchMsg (selector expected : String) : String :=
  "expect.toHaveText: " ++ selector ++ " expected " ++ expected

/-- Modelled from the spec: driver error for `expect(locator).not.toBeVisible`
failing because the element is still visible. -/
def stillVisibleMsg (selector : String) : String :=
  "expect.not.toBeVisible: " ++ selector

/-- Modelled from the spec: driver error for a URL assertion mismatch. -/
def urlMismatchMsg (expected actual : String) : String :=
  "expect.toHaveURL: expected " ++ expected ++ " actual " ++ actual

/-- Modelled from the spec (sections 2, 4.1 and 6): the external
browser-automation driver over a page snapshot.  A visibility wait succeeds
when some matched element is visible; `allTextContents` reads the texts of
every currently matching element in DOM order without waiting and never fails;
`toHaveText` compares the single matched element text for exact equality;
`toHaveURL` with a string compares the current URL for equality, and with a
regexp built from a substring succeeds when the substring occurs in the
current URL; `selectOption` succeeds exactly when the `<select>` offers the
requested option. -/
def domDriver (dom : Dom) : Driver where
  url := dom.url
  waitVisible := fun sel _ =>
    if (dom.matched sel).any (fun e => e.visible) then .ok ()
    else .error (waitTimeoutMsg sel)
  click := fun sel =>
    if (dom.matched sel).any (fun e => e.visible) then .ok ()
    else .error (clickRejectedMsg sel)
  fill := fun sel _ =>
    if (dom.matched sel).any (fun e => e.visible) then .ok ()
    else .error (fillRejectedMsg sel)
  press := fun sel _ =>
    if (dom.matched sel).any (fun e => e.visible) then .ok ()
    else .error (clickRejectedMsg sel)
  selectOption := fun sel opt =>
    if (dom.options sel).contains opt then .ok ()
    else .error (selectOptionTimeoutMsg sel opt)
  haveText := fun sel expected _ =>
    if (dom.matched sel).map Elem.text = [expected] then .ok ()
    else .error (haveTextMismatchMsg sel expected)
  notVisible := fun sel =>
    if (dom.matched sel).any (fun e => e.visible) then .error (stillVisibleMsg sel)
    else .ok ()
  haveURL := fun expected =>
    if dom.url = expected then .ok () else .error (urlMismatchMsg expected dom.url)
  urlMatches := fun pat =>
    if pat.data <:+: dom.url.data then .ok ()
    else .error (urlMismatchMsg pat dom.url)
  allTextContents := fun sel => .ok ((dom.matched sel).map Elem.text)

/-- The characters matched by the JS regex character class `\s`
(for the ASCII range relevant to item names). -/
def jsWhitespace (c : Char) : Bool :=
  c = ' ' || c = '\t' || c = '\n' || c = '\r' || c = '\x0b' || c = '\x0c'

/-- Scanner for `String.replace(/\s+/g, '-')`: the flag records whether the
previous character was part of a whitespace run already replaced by a
hyphen. -/
def collapseWsAux (prevWs : Bool) : List Char → List Char
  | [] => []
  | c :: cs =>
      if jsWhitespace c then
        (if prevWs then [] else ['-']) ++ collapseWsAux true cs
      else c :: collapseWsAux false cs

/-- Model of `s.replace(/\s+/g, '-')` on the character list of `s`: each maximal run of
whitespace becomes a single hyphen. -/
def collapseWs (l : List Char) : List Char := collapseWsAux false l

/-- Model of `itemName.toLowerCase().replace(/\s+/g, '-')` from `CartPage.removeItem`;
`toLowerCase` acts per character (ASCII lowering for the names in use). -/
def formattedItemName (itemName : String) : String :=
  String.mk (collapseWs (itemName.data.map Char.toLower))

/-- The remove-control selector `CartPage.removeItem` derives from the item
name: `[data-test="remove-<formatted>"]`. -/
def removeButtonSelector (itemName : String) : String :=
  "[data-test=\"remove-" ++ formattedItemName itemName ++ "\"]"

/-- Model of `price.replace('$', '')`: JS `replace` with a string pattern replaces only
the first occurrence; here the pattern is the single character `$`. -/
def removeFirstDollar : List Char → List Char
  | [] => []
  | c :: cs => if c = '$' then cs else c :: removeFirstDollar cs

/-- A JS number in the price domain: `none` models `NaN` (the result of
`parseFloat` on a string with no leading number), `some q` an exact value.
`Object.is`-style equality used by `toEqual` treats `NaN` as equal to `NaN`,
which `Option` equality mirrors. -/
abbrev JsNum := Option ℚ

/-- Numeric value of a list of decimal digit characters. -/
def digitsToNat (ds : List Char) : Nat :=
  ds.foldl (fun n c => n * 10 + (c.toNat - 48)) 0

/-- Modelled JS `parseFloat` restricted to the decimal shapes occurring in
price strings: optional leading whitespace and sign, then decimal digits with
an optional fraction part; `none` (NaN) when no digits are found.  (Exponents
and `Infinity` do not occur in this domain.) -/
def jsParseFloat (s : String) : JsNum :=
  let cs := s.data.dropWhile jsWhitespace
  let signed : ℚ × List Char :=
    match cs with
    | '-' :: rest => (-1, rest)
    | '+' :: rest => (1, rest)
    | _ => (1, cs)
  let intPart := signed.2.takeWhile Char.isDigit
  let rest := signed.2.dropWhile Char.isDigit
  let fracPart : List Char :=
    match rest with
    | '.' :: r => r.takeWhile Char.isDigit
    | _ => []
  if intPart.isEmpty && fracPart.isEmpty then none
  else
    some (signed.1 * ((digitsToNat intPart : ℚ)
      + (digitsToNat fracPart : ℚ) / ((10 : ℚ) ^ fracPart.length)))

/-- Parsing of one on-screen price string as `verifyItemPrices` performs it:
strip the first `$`, then `parseFloat`. -/
def parsePrice (price : String) : JsNum :=
  jsParseFloat (String.mk (removeFirstDollar price.data))

/-- Two-digit rendering of a value below 100. -/
def pad2 (n : Nat) : String := if n < 10 then "0" ++ toString n else toString n

/-- Modelled JS `price.toFixed(2)` for the non-negative exact-cent amounts the
fixtures contain. -/
def toFixed2 (q : ℚ) : String :=
  let cents := (Int.floor (q * 100)).toNat
  toString (cents / 100) ++ "." ++ pad2 (cents % 100)

/-- The expect-library `toEqual` assertion (external collaborator): an
in-process structural comparison that throws on mismatch and issues no driver
operation. -/
def expectToEqual {α : Type} [DecidableEq α] (actual expected : α) :
    Except Err Unit × List Op :=
  if actual = expected then (.ok (), [])
  else (.error (.driver "expect(received).toEqual(expected)"), [])

/-- A direct `expect(locator).toHaveText(text, {timeout?})` on an
already-obtained locator, with no try/catch around it: a failure is the raw
driver error. -/
def toHaveTextStep (d : Driver) (selector text : String) (timeout : Option Nat) :
    Except Err Unit × List Op :=
  match d.haveText selector text timeout with
  | .ok _ => (.ok (), [.haveText selector text timeout])
  | .error e => (.error (.driver e), [.haveText selector text timeout])

/-- A direct `expect(page).toHaveURL(expected)` with no try/catch. -/
def toHaveURLStep (d : Driver) (expected : String) : Except Err Unit × List Op :=
  match d.haveURL expected with
  | .ok _ => (.ok (), [.haveURL expected])
  | .error e => (.error (.driver e), [.haveURL expected])

/-- Playwright `locator.first()`, modelled as a derived selector. -/
def firstOf (selector : String) : String := selector ++ " >> nth=0"

/-- Embedding of `LoginPage.assertLoginPage`. -/
def LoginPage.assertLoginPage (d : Driver) : Except Err Unit × List Op :=
  andThen (BasePage.waitForElement d ".login_logo" none) fun _ =>
    BasePage.assertElementText d ".login_logo" "Swag Labs" none

/-- Embedding of `LoginPage.assertLoginError(message)`. -/
def LoginPage.assertLoginError (d : Driver) (message : String) : Except Err Unit × List Op :=
  andThen (BasePage.waitForElement d "[data-test=\"error\"]" none) fun _ =>
    BasePage.assertElementText d "[data-test=\"error\"]" message none

/-- Embedding of `InventoryPage.assertInventoryPage`. -/
def InventoryPage.assertInventoryPage (d : Driver) : Except Err Unit × List Op :=
  BasePage.assertElementText d ".title" "Products" none

/-- Embedding of `InventoryPage.selectProductSortOption(sortOption)`: wait for the sort
dropdown, then driver-level `selectOption` with no try/catch of its own, so a
driver failure propagates unchanged. -/
def InventoryPage.selectProductSortOption (d : Driver) (sortOption : String) :
    Except Err Unit × List Op :=
  match BasePage.waitForElement d ".product_sort_container" none with
  | (.ok loc, t) =>
      match d.selectOption loc sortOption with
      | .ok _ => (.ok (), t ++ [.selectOption loc sortOption])
      | .error e => (.error (.driver e), t ++ [.selectOption loc sortOption])
  | (.error e, t) => (.error e, t)

/-- Embedding of `InventoryPage.verifyFirstItemInList(itemName)`. -/
def InventoryPage.verifyFirstItemInList (d : Driver) (itemName : String) :
    Except Err Unit × List Op :=
  toHaveTextStep d (firstOf ".inventory_item_name") itemName none

/-- Embedding of `InventoryPage.verifyFirstItemPrice(price)`. -/
def InventoryPage.verifyFirstItemPrice (d : Driver) (price : ℚ) :
    Except Err Unit × List Op :=
  toHaveTextStep d (firstOf ".inventory_item_price") ("$" ++ toFixed2 price) none

/-- Embedding of `InventoryPage.verifyItemDetails(itemName, itemDescription, itemPrice)`. -/
def InventoryPage.verifyItemDetails (d : Driver) (itemName itemDescription : String)
    (itemPrice : ℚ) : Except Err Unit × List Op :=
  andThen (BasePage.assertElementText d ".inventory_details_name" itemName none) fun _ =>
  andThen (BasePage.assertElementText d ".inventory_details_desc" itemDescription none) fun _ =>
  BasePage.assertElementText d ".inventory_details_price" ("$" ++ toFixed2 itemPrice) none

/-- Embedding of `InventoryPage.verifyItemDescriptions(expectedItems)`: read all names and
descriptions, then compare both lists with `toEqual`. -/
def InventoryPage.verifyItemDescriptions (d : Driver)
    (expectedItems : List (String × String)) : Except Err Unit × List Op :=
  andThen (BasePage.getAllTextContents d ".inventory_item_name") fun itemNames =>
  andThen (BasePage.getAllTextContents d ".inventory_item_desc") fun itemDescriptions =>
  andThen (expectToEqual itemNames (expectedItems.map Prod.fst)) fun _ =>
  expectToEqual itemDescriptions (expectedItems.map Prod.snd)

/-- Embedding of `InventoryPage.verifyItemPrices(expectedItems)`: read all names and price
strings, strip the first `$` from each price and `parseFloat` it, then compare
the name list and the parsed price list with `toEqual`. -/
def InventoryPage.verifyItemPrices (d : Driver)
    (expectedItems : List (String × JsNum)) : Except Err Unit × List Op :=
  andThen (BasePage.getAllTextContents d ".inventory_item_name") fun itemNames =>
  andThen (BasePage.getAllTextContents d ".inventory_item_price") fun itemPrices =>
  andThen (expectToEqual itemNames (expectedItems.map Prod.fst)) fun _ =>
  expectToEqual (itemPrices.map parsePrice) (expectedItems.map Prod.snd)

/-- Embedding of `CartPage.assertCartPage`. -/
def CartPage.assertCartPage (d : Driver) : Except Err Unit × List Op :=
  BasePage.assertElementText d ".title" "Your Cart" none

/-- Embedding of `CartPage.assertCartItemCount(expectedItemCount)`: a direct
`expect(badge).toHaveText(n, { timeout: 10000 })` with an explicit 10000 ms
timeout and no try/catch. -/
def CartPage.assertCartItemCount (d : Driver) (expectedItemCount : Nat) :
    Except Err Unit × List Op :=
  toHaveTextStep d ".shopping_cart_badge" (toString expectedItemCount) (some 10000)

/-- Embedding of `CartPage.goToCart`. -/
def CartPage.goToCart (d : Driver) : Except Err Unit × List Op :=
  BasePage.clickElement d ".shopping_cart_link"

/-- Embedding of `CartPage.assertItemAdded(itemName)`: go to the cart, wait for the item
with a 10000 ms visibility timeout, then a default-timeout text assertion. -/
def CartPage.assertItemAdded (d : Driver) (itemName : String) :
    Except Err Unit × List Op :=
  andThen (CartPage.goToCart d) fun _ =>
  andThen (BasePage.waitForElement d
      (".inventory_item_name:has-text(\"" ++ itemName ++ "\")") (some 10000)) fun loc =>
  toHaveTextStep d loc itemName none

/-- Embedding of `CartPage.removeItem(itemName)`: derive the remove-control selector from
the item name, wait for it, click it, then expect it to no longer be
visible. -/
def CartPage.removeItem (d : Driver) (itemName : String) : Except Err Unit × List Op :=
  let sel := removeButtonSelector itemName
  match BasePage.waitForElement d sel none with
  | (.ok loc, t) =>
      match d.click loc with
      | .ok _ =>
          match d.notVisible sel with
          | .ok _ => (.ok (), t ++ [.click loc, .notVisible sel])
          | .error e => (.error (.driver e), t ++ [.click loc, .notVisible sel])
      | .error e => (.error (.driver e), t ++ [.click loc])
  | (.error e, t) => (.error e, t)

/-- Embedding of `CheckoutPage.assertCheckoutPage`: read the current URL, assert
`toHaveURL` against that same value, then the title-text assertion. -/
def CheckoutPage.assertCheckoutPage (d : Driver) : Except Err Unit × List Op :=
  andThen (toHaveURLStep d d.url) fun _ =>
    BasePage.assertElementText d ".title" "Checkout: Your Information" none

/-- Embedding of `CheckoutPage.assertOverviewPage`: same vacuous URL check, then the
overview title-text assertion. -/
def CheckoutPage.assertOverviewPage (d : Driver) : Except Err Unit × List Op :=
  andThen (toHaveURLStep d d.url) fun _ =>
    BasePage.assertElementText d ".title" "Checkout: Overview" none

/-- Embedding of `CheckoutPage.fillCheckoutInfo(firstName, lastName, zip)`: fill the three
fields in order, then click Continue. -/
def CheckoutPage.fillCheckoutInfo (d : Driver) (firstName lastName zip : String) :
    Except Err Unit × List Op :=
  andThen (BasePage.fillField d "#first-name" firstName) fun _ =>
  andThen (BasePage.fillField d "#last-name" lastName) fun _ =>
  andThen (BasePage.fillField d "#postal-code" zip) fun _ =>
  BasePage.clickElement d "#continue"

/-- Embedding of `CheckoutPage.assertErrorMessage(message)`. -/
def CheckoutPage.assertErrorMessage (d : Driver) (message : String) :
    Except Err Unit × List Op :=
  BasePage.assertElementText d ".error-message-container" message none

/-- Embedding of `CheckoutPage.assertOrderConfirmation`. -/
def CheckoutPage.assertOrderConfirmation (d : Driver) : Except Err Unit × List Op :=
  andThen (BasePage.assertElementText d ".complete-header" "Thank you for your order!" none)
    fun _ =>
  BasePage.assertElementText d ".complete-text"
    "Your order has been dispatched, and will arrive just as fast as the pony can get there!"
    none

/-- Embedding of `CheckoutPage.assertOrderSummary(itemName, itemPrice, itemQuantity)`. -/
def CheckoutPage.assertOrderSummary (d : Driver) (itemName : String) (itemPrice : ℚ)
    (itemQuantity : String) : Except Err Unit × List Op :=
  andThen (BasePage.assertElementText d ".inventory_item_name" itemName none) fun _ =>
  andThen (BasePage.assertElementText d ".inventory_item_price"
      ("$" ++ toFixed2 itemPrice) none) fun _ =>
  BasePage.assertElementText d ".cart_quantity" itemQuantity none

/-- Modelled from the spec: the checkout form validation of the external web
application (spec sections 4.5 and 8); the application itself is not part of
this repository.  Validation order is first-name, then last-name, then
postal-code, and the first missing field determines the error message. -/
def checkoutValidationError (firstName lastName zip : String) : Option String :=
  if firstName = "" then some "Error: First Name is required"
  else if lastName = "" then some "Error: Last Name is required"
  else if zip = "" then some "Error: Postal Code is required"
  else none

/-- Modelled from the spec: the `InvalidOption` error shape of the spec error
taxonomy (section 7), an error the page layer itself would raise tagged as an
unrecognized enumerated option.  A raw propagated driver failure is not such
an error; a thrown layer error is one exactly when it is tagged
`InvalidOption`. -/
def isInvalidOptionError : Err → Prop
  | .driver _ => False
  | .thrown m => "InvalidOption".data <:+: m.data

/-! ## Helper lemmas -/

theorem data_append_eq (a b : String) : (a ++ b).data = a.data ++ b.data := rfl

theorem infix_start {α : Type} (m r : List α) : m <:+: m ++ r :=
  ⟨[], r, by simp⟩

theorem infix_here {α : Type} (l m r : List α) : m <:+: l ++ (m ++ r) :=
  ⟨l, r, by simp⟩

theorem infix_grow {α : Type} (x : List α) {m r : List α} (h : m <:+: r) :
    m <:+: x ++ r := by
  rcases h with ⟨s, t, rfl⟩
  exact ⟨x ++ s, t, by simp⟩

theorem selector_in_elementNotVisibleMsg (sel : String) (t : Option Nat) (e : String) :
    sel.data <:+: (elementNotVisibleMsg sel t e).data := by
  simp only [elementNotVisibleMsg, data_append_eq, List.append_assoc]
  exact infix_grow _ (infix_start _ _)

theorem cause_in_elementNotVisibleMsg (sel : String) (t : Option Nat) (e : String) :
    e.data <:+: (elementNotVisibleMsg sel t e).data := by
  simp only [elementNotVisibleMsg, data_append_eq, List.append_assoc]
  exact infix_grow _ (infix_grow _ (infix_grow _ (infix_grow _ (infix_grow _
    ⟨[], [], by simp⟩))))

theorem timeout_in_elementNotVisibleMsg (sel : String) (n : Nat) (hn : n ≠ 0)
    (e : String) :
    (toString n).data <:+: (elementNotVisibleMsg sel (some n) e).data := by
  simp only [elementNotVisibleMsg, timeoutStr, if_neg hn, data_append_eq,
    List.append_assoc]
  exact infix_grow _ (infix_grow _ (infix_grow _ (infix_start _ _)))

theorem click_in_failedClickMsg (sel cause : String) :
    "click".data <:+: (failedClickMsg sel cause).data := by
  simp only [failedClickMsg, data_append_eq, List.append_assoc]
  have h1 : "click".data <:+: "Failed to click element \"".data :=
    ⟨"Failed to ".data, " element \"".data, by decide⟩
  exact h1.trans (infix_start _ _)

theorem selector_in_failedClickMsg (sel cause : String) :
    sel.data <:+: (failedClickMsg sel cause).data := by
  simp only [failedClickMsg, data_append_eq, List.append_assoc]
  exact infix_grow _ (infix_start _ _)

theorem cause_in_failedClickMsg (sel cause : String) :
    cause.data <:+: (failedClickMsg sel cause).data := by
  simp only [failedClickMsg, data_append_eq, List.append_assoc]
  exact infix_grow _ (infix_grow _ (infix_grow _ ⟨[], [], by simp⟩))

theorem selector_in_failedFillMsg (sel v cause : String) :
    sel.data <:+: (failedFillMsg sel v cause).data := by
  simp only [failedFillMsg, data_append_eq, List.append_assoc]
  exact infix_grow _ (infix_start _ _)

theorem value_in_failedFillMsg (sel v cause : String) :
    v.data <:+: (failedFillMsg sel v cause).data := by
  simp only [failedFillMsg, data_append_eq, List.append_assoc]
  exact infix_grow _ (infix_grow _ (infix_grow _ (infix_start _ _)))

theorem cause_in_failedFillMsg (sel v cause : String) :
    cause.data <:+: (failedFillMsg sel v cause).data := by
  simp only [failedFillMsg, data_append_eq, List.append_assoc]
  exact infix_grow _ (infix_grow _ (infix_grow _ (infix_grow _ (infix_grow _
    ⟨[], [], by simp⟩))))

theorem selector_in_assertTextFailMsg (sel txt : String) (t : Option Nat) (e : String) :
    sel.data <:+: (assertTextFailMsg sel txt t e).data := by
  simp only [assertTextFailMsg, data_append_eq, List.append_assoc]
  exact infix_grow _ (infix_start _ _)

theorem expected_in_assertTextFailMsg (sel txt : String) (t : Option Nat) (e : String) :
    txt.data <:+: (assertTextFailMsg sel txt t e).data := by
  simp only [assertTextFailMsg, data_append_eq, List.append_assoc]
  exact infix_grow _ (infix_grow _ (infix_grow _ (infix_start _ _)))

theorem cause_in_assertTextFailMsg (sel txt : String) (t : Option Nat) (e : String) :
    e.data <:+: (assertTextFailMsg sel txt t e).data := by
  simp only [assertTextFailMsg, data_append_eq, List.append_assoc]
  exact infix_grow _ (infix_grow _ (infix_grow _ (infix_grow _ (infix_grow _
    (infix_grow _ (infix_grow _ ⟨[], [], by simp⟩))))))

theorem substring_in_urlFailMsg (sub cur e : String) :
    sub.data <:+: (urlFailMsg sub cur e).data := by
  simp only [urlFailMsg, data_append_eq, List.append_assoc]
  exact infix_grow _ (infix_start _ _)

theorem currentUrl_in_urlFailMsg (sub cur e : String) :
    cur.data <:+: (urlFailMsg sub cur e).data := by
  simp only [urlFailMsg, data_append_eq, List.append_assoc]
  exact infix_grow _ (infix_grow _ (infix_grow _ (infix_start _ _)))

theorem cause_in_urlFailMsg (sub cur e : String) :
    e.data <:+: (urlFailMsg sub cur e).data := by
  simp only [urlFailMsg, data_append_eq, List.append_assoc]
  exact infix_grow _ (infix_grow _ (infix_grow _ (infix_grow _ (infix_grow _
    ⟨[], [], by simp⟩))))

theorem selector_in_allTextFailMsg (sel e : String) :
    sel.data <:+: (allTextFailMsg sel e).data := by
  simp only [allTextFailMsg, data_append_eq, List.append_assoc]
  exact infix_grow _ (infix_start _ _)

theorem cause_in_allTextFailMsg (sel e : String) :
    e.data <:+: (allTextFailMsg sel e).data := by
  simp only [allTextFailMsg, data_append_eq, List.append_assoc]
  exact infix_grow _ (infix_grow _ (infix_grow _ ⟨[], [], by simp⟩))

/-! ## Claim theorems -/

/-- Claim C1: the wait-then-act invariant for the mutating BasePage
primitives: for every driver and selector, `clickElement` and `fillField`
first issue a visibility wait on that selector (it is the first operation of
their trace); the click or fill operation is issued exactly when that wait
succeeded, and when the wait fails no click or fill is issued at all. -/
theorem clickElement_fillField_wait_then_act (d : Driver) (selector value : String) :
    (BasePage.clickElement d selector).2
        = (match d.waitVisible selector none with
           | .ok _ => [.waitVisible selector none, .click selector]
           | .error _ => [.waitVisible selector none])
    ∧ (BasePage.fillField d selector value).2
        = (match d.waitVisible selector none with
           | .ok _ => [.waitVisible selector none, .fill selector value]
           | .error _ => [.waitVisible selector none])
    ∧ (BasePage.clickElement d selector).2.head? = some (.waitVisible selector none)
    ∧ (BasePage.fillField d selector value).2.head? = some (.waitVisible selector none) := by
  rcases hw : d.waitVisible selector none with e | u
  · simp [BasePage.clickElement, BasePage.fillField, BasePage.waitForElement, hw]
  · rcases hc : d.click selector with e | u' <;>
      rcases hf : d.fill selector value with e' | u'' <;>
      simp [BasePage.clickElement, BasePage.fillField, BasePage.waitForElement, hw, hc, hf]

/-- Claim C2: the BasePage failure shapes: on a visibility-wait timeout,
`waitForElement` fails with the element-not-visible error carrying the
selector (always), the timeout in milliseconds (whenever an explicit nonzero
timeout was passed; the falsy values `undefined` and `0` render as
`default`), and the driver cause; `clickElement` performs the wait and then
the click, and wraps any failure of either step as the action-failure error
carrying the action word `click`, the selector, and the underlying cause. -/
theorem basePage_error_shapes :
    (∀ (d : Driver) (selector : String) (t : Option Nat) (e : String),
      d.waitVisible selector t = .error e →
      BasePage.waitForElement d selector t
        = (.error (.thrown (elementNotVisibleMsg selector t e)),
            [.waitVisible selector t]))
    ∧ (∀ (selector : String) (t : Option Nat) (e : String),
        selector.data <:+: (elementNotVisibleMsg selector t e).data
        ∧ e.data <:+: (elementNotVisibleMsg selector t e).data)
    ∧ (∀ (selector : String) (n : Nat) (e : String), n ≠ 0 →
        (toString n).data <:+: (elementNotVisibleMsg selector (some n) e).data)
    ∧ (∀ (d : Driver) (selector : String) (e : String),
        d.waitVisible selector none = .ok () → d.click selector = .error e →
        (BasePage.clickElement d selector).1
          = .error (.thrown (failedClickMsg selector e)))
    ∧ (∀ (d : Driver) (selector : String) (e : String),
        d.waitVisible selector none = .error e →
        (BasePage.clickElement d selector).1
          = .error (.thrown (failedClickMsg selector
              (errString (.thrown (elementNotVisibleMsg selector none e))))))
    ∧ (∀ (selector cause : String),
        "click".data <:+: (failedClickMsg selector cause).data
        ∧ selector.data <:+: (failedClickMsg selector cause).data
        ∧ cause.data <:+: (failedClickMsg selector cause).data) := by
  refine ⟨?_, ?_, ?_, ?_, ?_, ?_⟩
  · intro d selector t e hw
    simp [BasePage.waitForElement, hw]
  · intro selector t e
    exact ⟨selector_in_elementNotVisibleMsg selector t e,
      cause_in_elementNotVisibleMsg selector t e⟩
  · intro selector n e hn
    exact timeout_in_elementNotVisibleMsg selector n hn e
  · intro d selector e hw hc
    simp [BasePage.clickElement, BasePage.waitForElement, hw, hc]
  · intro d selector e hw
    simp [BasePage.clickElement, BasePage.waitForElement, hw, errString]
  · intro selector cause
    exact ⟨click_in_failedClickMsg selector cause,
      selector_in_failedClickMsg selector cause,
      cause_in_failedClickMsg selector cause⟩

/-- A driver whose every operation fails with the fixed error `boom`, and
whose current URL is `u0`. -/
def failDriver : Driver where
  url := "https://www.saucedemo.com/checkout-step-one.html"
  waitVisible := fun _ _ => .error "boom"
  click := fun _ => .error "boom"
  fill := fun _ _ => .error "boom"
  press := fun _ _ => .error "boom"
  selectOption := fun _ _ => .error "boom"
  haveText := fun _ _ _ => .error "boom"
  notVisible := fun _ => .error "boom"
  haveURL := fun _ => .error "boom"
  urlMatches := fun _ => .error "boom"
  allTextContents := fun _ => .error "boom"

/-- A driver whose visibility waits succeed but whose actions fail with the
fixed error `boom`. -/
def waitOkDriver : Driver where
  url := "https://www.saucedemo.com/checkout-step-one.html"
  waitVisible := fun _ _ => .ok ()
  click := fun _ => .error "boom"
  fill := fun _ _ => .error "boom"
  press := fun _ _ => .error "boom"
  selectOption := fun _ _ => .error "boom"
  haveText := fun _ _ _ => .error "boom"
  notVisible := fun _ => .error "boom"
  haveURL := fun _ => .error "boom"
  urlMatches := fun _ => .error "boom"
  allTextContents := fun _ => .error "boom"

/-- Witness for claim C2, at the selector `#login-button`, a 5000 ms timeout
and the driver cause `boom`. -/
theorem basePage_error_shapes_witness :
    BasePage.waitForElement failDriver "#login-button" (some 5000)
      = (.error (.thrown (elementNotVisibleMsg "#login-button" (some 5000) "boom")),
          [.waitVisible "#login-button" (some 5000)])
    ∧ (toString 5000).data <:+: (elementNotVisibleMsg "#login-button" (some 5000) "boom").data
    ∧ (BasePage.clickElement waitOkDriver "#login-button").1
        = .error (.thrown (failedClickMsg "#login-button" "boom"))
    ∧ (BasePage.clickElement failDriver "#login-button").1
        = .error (.thrown (failedClickMsg "#login-button"
            (errString (.thrown (elementNotVisibleMsg "#login-button" none "boom"))))) :=
  ⟨basePage_error_shapes.1 failDriver "#login-button" (some 5000) "boom" rfl,
   basePage_error_shapes.2.2.1 "#login-button" 5000 "boom" (by decide),
   basePage_error_shapes.2.2.2.1 waitOkDriver "#login-button" "boom" rfl rfl,
   basePage_error_shapes.2.2.2.2.1 failDriver "#login-button" "boom" rfl⟩

/-- Claim C4: propagation policy of the BasePage primitives: whenever the
driver-level operation inside `waitForElement`, `assertElementText`,
`clickElement`, `fillField`, `assertUrlContains` or `getAllTextContents`
fails, the primitive re-raises a thrown error enriched with
selector/expected/actual context (the relevant pieces occur in the message)
and never returns normally — in particular no default value is substituted
for the result. -/
theorem basePage_propagation_policy :
    (∀ (d : Driver) (s : String) (t : Option Nat) (e : String),
      d.waitVisible s t = .error e →
      (BasePage.waitForElement d s t).1 = .error (.thrown (elementNotVisibleMsg s t e))
      ∧ s.data <:+: (elementNotVisibleMsg s t e).data
      ∧ e.data <:+: (elementNotVisibleMsg s t e).data)
    ∧ (∀ (d : Driver) (s txt : String) (t : Option Nat) (e : String),
        d.haveText s txt t = .error e →
        (BasePage.assertElementText d s txt t).1
          = .error (.thrown (assertTextFailMsg s txt t e))
        ∧ s.data <:+: (assertTextFailMsg s txt t e).data
        ∧ txt.data <:+: (assertTextFailMsg s txt t e).data
        ∧ e.data <:+: (assertTextFailMsg s txt t e).data)
    ∧ (∀ (d : Driver) (s e : String),
        d.waitVisible s none = .ok () → d.click s = .error e →
        (BasePage.clickElement d s).1 = .error (.thrown (failedClickMsg s e))
        ∧ s.data <:+: (failedClickMsg s e).data
        ∧ e.data <:+: (failedClickMsg s e).data)
    ∧ (∀ (d : Driver) (s v e : String),
        d.waitVisible s none = .ok () → d.fill s v = .error e →
        (BasePage.fillField d s v).1 = .error (.thrown (failedFillMsg s v e))
        ∧ s.data <:+: (failedFillMsg s v e).data
        ∧ v.data <:+: (failedFillMsg s v e).data
        ∧ e.data <:+: (failedFillMsg s v e).data)
    ∧ (∀ (d : Driver) (sub e : String),
        d.urlMatches sub = .error e →
        (BasePage.assertUrlContains d sub).1
          = .error (.thrown (urlFailMsg sub d.url e))
        ∧ sub.data <:+: (urlFailMsg sub d.url e).data
        ∧ d.url.data <:+: (urlFailMsg sub d.url e).data
        ∧ e.data <:+: (urlFailMsg sub d.url e).data)
    ∧ (∀ (d : Driver) (s e : String),
        d.allTextContents s = .error e →
        (BasePage.getAllTextContents d s).1 = .error (.thrown (allTextFailMsg s e))
        ∧ s.data <:+: (allTextFailMsg s e).data
        ∧ e.data <:+: (allTextFailMsg s e).data) := by
  refine ⟨?_, ?_, ?_, ?_, ?_, ?_⟩
  · intro d s t e h
    exact ⟨by simp [BasePage.waitForElement, h],
      selector_in_elementNotVisibleMsg s t e, cause_in_elementNotVisibleMsg s t e⟩
  · intro d s txt t e h
    exact ⟨by simp [BasePage.assertElementText, h],
      selector_in_assertTextFailMsg s txt t e,
      expected_in_assertTextFailMsg s txt t e, cause_in_assertTextFailMsg s txt t e⟩
  · intro d s e hw h
    exact ⟨by simp [BasePage.clickElement, BasePage.waitForElement, hw, h],
      selector_in_failedClickMsg s e, cause_in_failedClickMsg s e⟩
  · intro d s v e hw h
    exact ⟨by simp [BasePage.fillField, BasePage.waitForElement, hw, h],
      selector_in_failedFillMsg s v e, value_in_failedFillMsg s v e,
      cause_in_failedFillMsg s v e⟩
  · intro d sub e h
    exact ⟨by simp [BasePage.assertUrlContains, h],
      substring_in_urlFailMsg sub d.url e, currentUrl_in_urlFailMsg sub d.url e,
      cause_in_urlFailMsg sub d.url e⟩
  · intro d s e h
    exact ⟨by simp [BasePage.getAllTextContents, h],
      selector_in_allTextFailMsg s e, cause_in_allTextFailMsg s e⟩

/-- Witness for claim C4: each primitive applied to a concrete failing
driver returns the enriched thrown error. -/
theorem basePage_propagation_policy_witness :
    (BasePage.waitForElement failDriver ".title" none).1
      = .error (.thrown (elementNotVisibleMsg ".title" none "boom"))
    ∧ (BasePage.assertElementText failDriver ".title" "Products" none).1
      = .error (.thrown (assertTextFailMsg ".title" "Products" none "boom"))
    ∧ (BasePage.clickElement waitOkDriver "#checkout").1
      = .error (.thrown (failedClickMsg "#checkout" "boom"))
    ∧ (BasePage.fillField waitOkDriver "#first-name" "John").1
      = .error (.thrown (failedFillMsg "#first-name" "John" "boom"))
    ∧ (BasePage.assertUrlContains failDriver "inventory").1
      = .error (.thrown (urlFailMsg "inventory" failDriver.url "boom"))
    ∧ (BasePage.getAllTextContents failDriver ".inventory_item_name").1
      = .error (.thrown (allTextFailMsg ".inventory_item_name" "boom")) :=
  ⟨(basePage_propagation_policy.1 failDriver ".title" none "boom" rfl).1,
   (basePage_propagation_policy.2.1 failDriver ".title" "Products" none "boom" rfl).1,
   (basePage_propagation_policy.2.2.1 waitOkDriver "#checkout" "boom" rfl rfl).1,
   (basePage_propagation_policy.2.2.2.1 waitOkDriver "#first-name" "John" "boom" rfl rfl).1,
   (basePage_propagation_policy.2.2.2.2.1 failDriver "inventory" "boom" rfl).1,
   (basePage_propagation_policy.2.2.2.2.2 failDriver ".inventory_item_name" "boom" rfl).1⟩

/-- The inventory page snapshot relevant to the sort dropdown: the dropdown
is present and visible, and offers exactly the four sort options of the
application, by value and by label. -/
def standardInventoryDom : Dom where
  url := "https://www.saucedemo.com/inventory.html"
  matched := fun sel =>
    if sel = ".product_sort_container" then [{ visible := true, text := "Name (A to Z)" }]
    else []
  options := fun sel =>
    if sel = ".product_sort_container" then
      ["az", "za", "lohi", "hilo",
       "Name (A to Z)", "Name (Z to A)", "Price (low to high)", "Price (high to low)"]
    else []

/-- Counterexample to claim C3 as stated: at the unrecognized sort option
`bogus`, `selectProductSortOption` does fail, but with the driver-level
`selectOption` failure propagated unchanged — a raw driver error, which is
not an `InvalidOption` error of the layer. -/
theorem selectSortOption_not_invalidOption :
    (InventoryPage.selectProductSortOption (domDriver standardInventoryDom) "bogus").1
      = .error (.driver (selectOptionTimeoutMsg ".product_sort_container" "bogus"))
    ∧ ¬ isInvalidOptionError
        (.driver (selectOptionTimeoutMsg ".product_sort_container" "bogus")) := by
  constructor
  · rfl
  · intro h
    exact h

/-- Claim C3 amended: for every sort-option string the dropdown does not
offer (once the dropdown itself is visible), `selectProductSortOption` fails;
the failure is the external driver `selectOption` error propagated unchanged,
with no wrapping by the layer. -/
theorem selectSortOption_unrecognized_fails (dom : Dom) (opt : String)
    (hvis : ((dom.matched ".product_sort_container").any (fun e => e.visible)) = true)
    (hopt : ((dom.options ".product_sort_container").contains opt) = false) :
    InventoryPage.selectProductSortOption (domDriver dom) opt
      = (.error (.driver (selectOptionTimeoutMsg ".product_sort_container" opt)),
          [.waitVisible ".product_sort_container" none,
           .selectOption ".product_sort_container" opt]) := by
  have h1 : (domDriver dom).waitVisible ".product_sort_container" none = .ok () := by
    simp only [domDriver]
    rw [hvis]
    simp
  have h2 : (domDriver dom).selectOption ".product_sort_container" opt
      = .error (selectOptionTimeoutMsg ".product_sort_container" opt) := by
    simp only [domDriver]
    rw [hopt]
    simp
  simp [InventoryPage.selectProductSortOption, BasePage.waitForElement, h1, h2]

/-- Witness for the amended claim C3, at the standard inventory snapshot and
the unrecognized option `bogus`. -/
theorem selectSortOption_unrecognized_fails_witness :
    InventoryPage.selectProductSortOption (domDriver standardInventoryDom) "bogus"
      = (.error (.driver (selectOptionTimeoutMsg ".product_sort_container" "bogus")),
          [.waitVisible ".product_sort_container" none,
           .selectOption ".product_sort_container" "bogus"]) :=
  selectSortOption_unrecognized_fails standardInventoryDom "bogus" (by decide) (by decide)

/-- A driver whose every operation succeeds. -/
def okDriver : Driver where
  url := "https://www.saucedemo.com/checkout-step-one.html"
  waitVisible := fun _ _ => .ok ()
  click := fun _ => .ok ()
  fill := fun _ _ => .ok ()
  press := fun _ _ => .ok ()
  selectOption := fun _ _ => .ok ()
  haveText := fun _ _ _ => .ok ()
  notVisible := fun _ => .ok ()
  haveURL := fun _ => .ok ()
  urlMatches := fun _ => .ok ()
  allTextContents := fun _ => .ok []

/-- Claim C5: `fillCheckoutInfo` fills the first-name, last-name and
postal-code fields in that order (the empty string is a legal value, filled
like any other) and then clicks Continue; and, in the modelled validation of
the external application, the first missing field in the order
first-name, last-name, postal-code determines the error message, so omitting
only the first name and omitting all three fields produce the same
`First Name is required` message. -/
theorem fillCheckoutInfo_order_and_validation :
    (∀ (d : Driver) (firstName lastName zip : String),
      (∀ s t, d.waitVisible s t = .ok ()) →
      (∀ s v, d.fill s v = .ok ()) →
      (∀ s, d.click s = .ok ()) →
      CheckoutPage.fillCheckoutInfo d firstName lastName zip
        = (.ok (), [.waitVisible "#first-name" none, .fill "#first-name" firstName,
                    .waitVisible "#last-name" none, .fill "#last-name" lastName,
                    .waitVisible "#postal-code" none, .fill "#postal-code" zip,
                    .waitVisible "#continue" none, .click "#continue"]))
    ∧ (∀ firstName lastName zip, firstName = "" →
        checkoutValidationError firstName lastName zip
          = some "Error: First Name is required")
    ∧ checkoutValidationError "" "Doe" "12345" = some "Error: First Name is required"
    ∧ checkoutValidationError "" "" "" = checkoutValidationError "" "Doe" "12345" := by
  refine ⟨?_, ?_, rfl, rfl⟩
  · intro d firstName lastName zip hw hf hc
    simp [CheckoutPage.fillCheckoutInfo, BasePage.fillField, BasePage.clickElement,
      BasePage.waitForElement, andThen, hw, hf, hc]
  · intro firstName lastName zip h
    simp [checkoutValidationError, h]

/-- Witness for claim C5: at a driver whose operations all succeed and at the
all-empty persona, the fill/submit trace is as stated and the modelled
validation yields the first-name message. -/
theorem fillCheckoutInfo_order_and_validation_witness :
    CheckoutPage.fillCheckoutInfo okDriver "" "" ""
      = (.ok (), [.waitVisible "#first-name" none, .fill "#first-name" "",
                  .waitVisible "#last-name" none, .fill "#last-name" "",
                  .waitVisible "#postal-code" none, .fill "#postal-code" "",
                  .waitVisible "#continue" none, .click "#continue"])
    ∧ checkoutValidationError "" "" "" = some "Error: First Name is required" :=
  ⟨fillCheckoutInfo_order_and_validation.1 okDriver "" "" ""
      (fun _ _ => rfl) (fun _ _ => rfl) (fun _ => rfl),
   fillCheckoutInfo_order_and_validation.2.1 "" "" "" rfl⟩

/-- Claim C7: for every page snapshot and selector, `getAllTextContents`
returns the text of every element currently matching the selector, in DOM
order, and its trace is the single no-wait driver read (no visibility wait is
issued); in particular, when no element matches it returns the empty list
rather than an error. -/
theorem getAllTextContents_reads_all_without_waiting (dom : Dom) (selector : String) :
    BasePage.getAllTextContents (domDriver dom) selector
      = (.ok ((dom.matched selector).map Elem.text), [.allTextContents selector])
    ∧ ((dom.matched selector = []) →
        BasePage.getAllTextContents (domDriver dom) selector
          = (.ok [], [.allTextContents selector])) := by
  constructor
  · simp [BasePage.getAllTextContents, domDriver]
  · intro h
    simp [BasePage.getAllTextContents, domDriver, h]

/-- Witness for claim C7, at a snapshot where no element matches any
selector. -/
theorem getAllTextContents_reads_all_without_waiting_witness :
    BasePage.getAllTextContents
        (domDriver { url := "", matched := fun _ => [], options := fun _ => [] })
        ".inventory_item_name"
      = (.ok [], [.allTextContents ".inventory_item_name"]) :=
  (getAllTextContents_reads_all_without_waiting
    { url := "", matched := fun _ => [], options := fun _ => [] }
    ".inventory_item_name").2 rfl

/-- Claim C10: in `assertCheckoutPage` and `assertOverviewPage`, the URL
assertion compares the current URL against the value just read from the same
page, so over every page snapshot it succeeds vacuously; the result of each
method is exactly the result of its title-text assertion. -/
theorem checkoutPage_url_check_vacuous (dom : Dom) :
    toHaveURLStep (domDriver dom) (domDriver dom).url
      = (.ok (), [.haveURL dom.url])
    ∧ (CheckoutPage.assertCheckoutPage (domDriver dom)).1
        = (BasePage.assertElementText (domDriver dom) ".title"
            "Checkout: Your Information" none).1
    ∧ (CheckoutPage.assertOverviewPage (domDriver dom)).1
        = (BasePage.assertElementText (domDriver dom) ".title"
            "Checkout: Overview" none).1 := by
  have hurl : toHaveURLStep (domDriver dom) (domDriver dom).url
      = (.ok (), [.haveURL dom.url]) := by
    simp [toHaveURLStep, domDriver]
  refine ⟨hurl, ?_, ?_⟩
  · simp [CheckoutPage.assertCheckoutPage, andThen, hurl]
  · simp [CheckoutPage.assertOverviewPage, andThen, hurl]

/-- Claim C6: `verifyItemPrices` succeeds exactly when the on-screen ordered
name list equals the expected names and the on-screen price strings, each
parsed by stripping the first `$` and applying `parseFloat`, equal the
expected numeric amounts — full-list equality, so a mismatched length or any
single element mismatch fails the whole assertion; and the parser strips the
currency symbol (`$29.99` parses to the exact amount 29.99). -/
theorem verifyItemPrices_all_or_nothing :
    (∀ (dom : Dom) (expectedItems : List (String × JsNum)),
      ((InventoryPage.verifyItemPrices (domDriver dom) expectedItems).1 = .ok ())
      ↔ ((dom.matched ".inventory_item_name").map Elem.text
            = expectedItems.map Prod.fst
         ∧ ((dom.matched ".inventory_item_price").map Elem.text).map parsePrice
            = expectedItems.map Prod.snd))
    ∧ (∀ (dom : Dom) (expectedItems : List (String × JsNum)),
        ((dom.matched ".inventory_item_name").length ≠ expectedItems.length) →
        (InventoryPage.verifyItemPrices (domDriver dom) expectedItems).1 ≠ .ok ())
    ∧ parsePrice "$29.99" = some (2999 / 100 : ℚ) := by
  have hmain : ∀ (dom : Dom) (expectedItems : List (String × JsNum)),
      ((InventoryPage.verifyItemPrices (domDriver dom) expectedItems).1 = .ok ())
      ↔ ((dom.matched ".inventory_item_name").map Elem.text
            = expectedItems.map Prod.fst
         ∧ ((dom.matched ".inventory_item_price").map Elem.text).map parsePrice
            = expectedItems.map Prod.snd) := by
    intro dom expectedItems
    simp only [InventoryPage.verifyItemPrices, BasePage.getAllTextContents, domDriver,
      andThen, expectToEqual]
    split_ifs with h1 h2 <;> simp_all
  have hparse : parsePrice "$29.99" = some (2999 / 100 : ℚ) := by
    have h : parsePrice "$29.99"
        = some ((1 : ℚ) * ((((29 : ℕ) : ℚ)) + (((99 : ℕ) : ℚ)) / ((10 : ℚ) ^ (2 : ℕ)))) :=
      rfl
    rw [h]
    norm_num
  refine ⟨hmain, ?_, hparse⟩
  intro dom expectedItems hlen hok
  rcases (hmain dom expectedItems).1 hok with ⟨hnames, _⟩
  have := congrArg List.length hnames
  simp at this
  exact hlen this

/-- A one-item inventory snapshot used as a concrete witness input. -/
def oneItemDom : Dom where
  url := "https://www.saucedemo.com/inventory.html"
  matched := fun sel =>
    if sel = ".inventory_item_name" then [{ visible := true, text := "Sauce Labs Backpack" }]
    else if sel = ".inventory_item_price" then [{ visible := true, text := "$29.99" }]
    else []
  options := fun _ => []

/-- Witness for claim C6: at a one-item page and an empty expected list (a
length mismatch), the assertion does not pass. -/
theorem verifyItemPrices_all_or_nothing_witness :
    (InventoryPage.verifyItemPrices (domDriver oneItemDom) []).1 ≠ .ok () :=
  verifyItemPrices_all_or_nothing.2.1 oneItemDom [] (by decide)

/-- The explicit timeouts of the `toHaveText` operations in a trace, in
order (`none` is the process-wide default). -/
def haveTextTimeouts (ops : List Op) : List (Option Nat) :=
  ops.filterMap fun op =>
    match op with
    | .haveText _ _ t => some t
    | _ => none

theorem haveTextTimeouts_append (l1 l2 : List Op) :
    haveTextTimeouts (l1 ++ l2) = haveTextTimeouts l1 ++ haveTextTimeouts l2 := by
  simp [haveTextTimeouts]

theorem all_timeouts_andThen {α β : Type} (p : Option Nat → Bool)
    (x : Except Err α × List Op) (f : α → Except Err β × List Op)
    (hx : (haveTextTimeouts x.2).all p = true)
    (hf : ∀ a, (haveTextTimeouts (f a).2).all p = true) :
    (haveTextTimeouts (andThen x f).2).all p = true := by
  rcases x with ⟨r, t⟩
  cases r with
  | ok a =>
      simp only [andThen, haveTextTimeouts_append, List.all_append, Bool.and_eq_true]
      exact And.intro hx (hf a)
  | error e => exact hx

theorem timeouts_waitForElement (d : Driver) (s : String) (t : Option Nat) :
    haveTextTimeouts (BasePage.waitForElement d s t).2 = [] := by
  rcases h : d.waitVisible s t with e | u <;>
    simp [BasePage.waitForElement, h, haveTextTimeouts]

theorem timeouts_assertElementText (d : Driver) (s txt : String) (t : Option Nat) :
    haveTextTimeouts (BasePage.assertElementText d s txt t).2 = [t] := by
  rcases h : d.haveText s txt t with e | u <;>
    simp [BasePage.assertElementText, h, haveTextTimeouts]

theorem timeouts_toHaveTextStep (d : Driver) (s txt : String) (t : Option Nat) :
    haveTextTimeouts (toHaveTextStep d s txt t).2 = [t] := by
  rcases h : d.haveText s txt t with e | u <;>
    simp [toHaveTextStep, h, haveTextTimeouts]

theorem timeouts_clickElement (d : Driver) (s : String) :
    haveTextTimeouts (BasePage.clickElement d s).2 = [] := by
  rcases hw : d.waitVisible s none with e | u
  · simp [BasePage.clickElement, BasePage.waitForElement, hw, haveTextTimeouts]
  · rcases hc : d.click s with e | u' <;>
      simp [BasePage.clickElement, BasePage.waitForElement, hw, hc, haveTextTimeouts]

theorem timeouts_toHaveURLStep (d : Driver) (u : String) :
    haveTextTimeouts (toHaveURLStep d u).2 = [] := by
  rcases h : d.haveURL u with e | v <;>
    simp [toHaveURLStep, h, haveTextTimeouts]

/-- Claim C8: the badge-count assertion `assertCartItemCount` is the one text
assertion of the layer issued with an explicit extended 10000 ms timeout;
every `toHaveText` operation issued by the other embedded assertion methods
carries the process-wide default timeout (`none`). -/
theorem cartBadge_extended_timeout (d : Driver) (n : Nat) (msg itemName desc qty : String)
    (price : ℚ) :
    haveTextTimeouts (CartPage.assertCartItemCount d n).2 = [some 10000]
    ∧ (haveTextTimeouts (CartPage.assertCartPage d).2).all (fun t => t == none) = true
    ∧ (haveTextTimeouts (CartPage.assertItemAdded d itemName).2).all
        (fun t => t == none) = true
    ∧ (haveTextTimeouts (InventoryPage.assertInventoryPage d).2).all
        (fun t => t == none) = true
    ∧ (haveTextTimeouts (InventoryPage.verifyFirstItemInList d itemName).2).all
        (fun t => t == none) = true
    ∧ (haveTextTimeouts (InventoryPage.verifyFirstItemPrice d price).2).all
        (fun t => t == none) = true
    ∧ (haveTextTimeouts (InventoryPage.verifyItemDetails d itemName desc price).2).all
        (fun t => t == none) = true
    ∧ (haveTextTimeouts (CheckoutPage.assertCheckoutPage d).2).all
        (fun t => t == none) = true
    ∧ (haveTextTimeouts (CheckoutPage.assertOverviewPage d).2).all
        (fun t => t == none) = true
    ∧ (haveTextTimeouts (CheckoutPage.assertErrorMessage d msg).2).all
        (fun t => t == none) = true
    ∧ (haveTextTimeouts (CheckoutPage.assertOrderConfirmation d).2).all
        (fun t => t == none) = true
    ∧ (haveTextTimeouts (CheckoutPage.assertOrderSummary d itemName price qty).2).all
        (fun t => t == none) = true
    ∧ (haveTextTimeouts (LoginPage.assertLoginPage d).2).all
        (fun t => t == none) = true
    ∧ (haveTextTimeouts (LoginPage.assertLoginError d msg).2).all
        (fun t => t == none) = true := by
  have hA : ∀ (s txt : String),
      (haveTextTimeouts (BasePage.assertElementText d s txt none).2).all
        (fun t => t == none) = true := by
    intro s txt
    rw [timeouts_assertElementText]
    rfl
  have hT : ∀ (s txt : String),
      (haveTextTimeouts (toHaveTextStep d s txt none).2).all
        (fun t => t == none) = true := by
    intro s txt
    rw [timeouts_toHaveTextStep]
    rfl
  have hW : ∀ (s : String) (t : Option Nat),
      (haveTextTimeouts (BasePage.waitForElement d s t).2).all
        (fun t => t == none) = true := by
    intro s t
    rw [timeouts_waitForElement]
    rfl
  have hC : ∀ (s : String),
      (haveTextTimeouts (BasePage.clickElement d s).2).all
        (fun t => t == none) = true := by
    intro s
    rw [timeouts_clickElement]
    rfl
  have hU : ∀ (u : String),
      (haveTextTimeouts (toHaveURLStep d u).2).all (fun t => t == none) = true := by
    intro u
    rw [timeouts_toHaveURLStep]
    rfl
  refine ⟨?_, hA _ _, ?_, hA _ _, hT _ _, hT _ _, ?_, ?_, ?_, hA _ _, ?_, ?_, ?_, ?_⟩
  · rw [CartPage.assertCartItemCount, timeouts_toHaveTextStep]
  · exact all_timeouts_andThen _ _ _ (hC _) fun _ =>
      all_timeouts_andThen _ _ _ (hW _ _) fun loc => hT _ _
  · exact all_timeouts_andThen _ _ _ (hA _ _) fun _ =>
      all_timeouts_andThen _ _ _ (hA _ _) fun _ => hA _ _
  · exact all_timeouts_andThen _ _ _ (hU _) fun _ => hA _ _
  · exact all_timeouts_andThen _ _ _ (hU _) fun _ => hA _ _
  · exact all_timeouts_andThen _ _ _ (hA _ _) fun _ => hA _ _
  · exact all_timeouts_andThen _ _ _ (hA _ _) fun _ =>
      all_timeouts_andThen _ _ _ (hA _ _) fun _ => hA _ _
  · exact all_timeouts_andThen _ _ _ (hW _ _) fun _ => hA _ _
  · exact all_timeouts_andThen _ _ _ (hW _ _) fun _ => hA _ _

theorem collapseWsAux_true_of_head_nonws (cs : List Char)
    (h : ∀ c, cs.head? = some c → jsWhitespace c = false) :
    collapseWsAux true cs = collapseWsAux false cs := by
  cases cs with
  | nil => rfl
  | cons c cs' =>
      have hc := h c rfl
      simp [collapseWsAux, hc]

theorem collapseWsAux_true_ws_run (w cs : List Char)
    (hw : w.all jsWhitespace = true)
    (h : ∀ c, cs.head? = some c → jsWhitespace c = false) :
    collapseWsAux true (w ++ cs) = collapseWs cs := by
  induction w with
  | nil =>
      simpa [collapseWs] using collapseWsAux_true_of_head_nonws cs h
  | cons a w' ih =>
      simp only [List.all_cons, Bool.and_eq_true] at hw
      simp only [List.cons_append, collapseWsAux, hw.1, if_pos]
      simpa using ih hw.2

/-- Claim C9: `CartPage.removeItem` derives the remove-control selector
deterministically from the item name: the first operation it issues is a
visibility wait on `[data-test="remove-<formatted>"]`, where the formatted
name is the lowercased item name with each maximal whitespace run replaced by
a single hyphen (non-whitespace characters, punctuation included, are kept
unchanged in order). -/
theorem removeItem_selector_derivation :
    (∀ (d : Driver) (itemName : String),
      (CartPage.removeItem d itemName).2.head?
        = some (.waitVisible (removeButtonSelector itemName) none))
    ∧ (∀ itemName : String,
        removeButtonSelector itemName
          = "[data-test=\"remove-" ++ formattedItemName itemName ++ "\"]")
    ∧ formattedItemName "Sauce Labs Backpack" = "sauce-labs-backpack"
    ∧ removeButtonSelector "Sauce Labs Backpack"
        = "[data-test=\"remove-sauce-labs-backpack\"]"
    ∧ formattedItemName "Test.allTheThings() T-Shirt (Red)"
        = "test.allthethings()-t-shirt-(red)"
    ∧ (∀ (c : Char) (cs : List Char), jsWhitespace c = false →
        collapseWs (c :: cs) = c :: collapseWs cs)
    ∧ (∀ (w cs : List Char), w ≠ [] → w.all jsWhitespace = true →
        (∀ c, cs.head? = some c → jsWhitespace c = false) →
        collapseWs (w ++ cs) = Char.ofNat 45 :: collapseWs cs) := by
  refine ⟨?_, fun _ => rfl, by decide, by decide, by decide, ?_, ?_⟩
  · intro d itemName
    rcases hw : d.waitVisible (removeButtonSelector itemName) none with e | u
    · simp [CartPage.removeItem, BasePage.waitForElement, hw]
    · rcases hc : d.click (removeButtonSelector itemName) with e | u'
      · simp [CartPage.removeItem, BasePage.waitForElement, hw, hc]
      · rcases hn : d.notVisible (removeButtonSelector itemName) with e | u'' <;>
          simp [CartPage.removeItem, BasePage.waitForElement, hw, hc, hn]
  · intro c cs h
    simp [collapseWs, collapseWsAux, h]
  · intro w cs hne hw h
    cases w with
    | nil => exact absurd rfl hne
    | cons a w' =>
        simp only [List.all_cons, Bool.and_eq_true] at hw
        simp only [List.cons_append, collapseWs, collapseWsAux, hw.1, if_pos]
        have := collapseWsAux_true_ws_run w' cs hw.2 h
        simp [this]
        rfl

/-- Witness for claim C9: the structural conjuncts applied at concrete
character lists (a non-whitespace head, and a two-space run before `x`). -/
theorem removeItem_selector_derivation_witness :
    collapseWs ('a' :: ['b']) = 'a' :: collapseWs ['b']
    ∧ collapseWs ([' ', ' '] ++ ['x']) = Char.ofNat 45 :: collapseWs ['x'] :=
  ⟨removeItem_selector_derivation.2.2.2.2.2.1 'a' ['b'] (by decide),
   removeItem_selector_derivation.2.2.2.2.2.2 [' ', ' '] ['x'] (by decide) (by decide)
     (fun c hc => by
        rw [← Option.some.inj hc]
        decide)⟩

end SauceDemo
